import Mathlib

/-!
Verification of the trexolists XML-extraction and summary-reconciliation code.

The Python sources (`trexolists/utils.py`, `trexolists/parse_apt.py`,
`trexolists/parse_vsr.py`, `trexolists/get_summary.py`,
`trexolists/compare_data.py`) are shallowly embedded below: XML elements
become an inductive tree, `None`-able values become `Option`, Python
dictionaries become structures, and the one exception that truly escapes
(`None.strip()`) is modelled with `Except`.  External library calls
(`astropy.time.Time(...).decimalyear`, the builtin `float(str)`) are taken
as function parameters so that theorems quantify over every possible
behaviour of those collaborators.
-/

namespace Trexolists

/-! ## Python string primitives -/

/-- The characters Python's `str.strip()` / `str.split()` treat as whitespace
(ASCII part; unicode spaces do not occur in these documents). -/
def isPySpace (c : Char) : Bool :=
  c = ' ' || c = '\t' || c = '\n' || c = '\r' || c = '\x0b' || c = '\x0c'

/-- Python `s.strip()`: drop leading and trailing whitespace. -/
def pyStrip (s : String) : String :=
  String.mk (((s.data.dropWhile isPySpace).reverse.dropWhile isPySpace).reverse)

/-- Worker for `pySplitWS`: `cur` holds the current word, reversed. -/
def wordsAux : List Char → List Char → List String
  | [], cur => if cur.isEmpty then [] else [String.mk cur.reverse]
  | c :: rest, cur =>
    if isPySpace c then
      if cur.isEmpty then wordsAux rest []
      else String.mk cur.reverse :: wordsAux rest []
    else wordsAux rest (c :: cur)

/-- Python `s.split()` (no argument): split on whitespace runs, dropping
empty pieces. -/
def pySplitWS (s : String) : List String :=
  wordsAux s.data []

/-- Worker for `pySplitComma`: `cur` holds the current piece, reversed. -/
def splitCommaAux : List Char → List Char → List String
  | [], cur => [String.mk cur.reverse]
  | c :: rest, cur =>
    if c = ',' then String.mk cur.reverse :: splitCommaAux rest []
    else splitCommaAux rest (c :: cur)

/-- Python `s.split(',')`: split at every comma, keeping empty pieces
(`"".split(',') == [""]`). -/
def pySplitComma (s : String) : List String :=
  splitCommaAux s.data []

/-- Does `needle` occur as a contiguous substring of `hay`?  Models Python's
`needle in hay` for strings. -/
def strContainsAux (needle : List Char) : List Char → Bool
  | [] => needle.isEmpty
  | c :: rest => needle.isPrefixOf (c :: rest) || strContainsAux needle rest

/-- Python `needle in hay` (substring containment). -/
def strContains (hay needle : String) : Bool :=
  strContainsAux needle.data hay.data

/-- Python `s.upper()` (ASCII; the documents carry no cased non-ASCII
text). -/
def pyUpper (s : String) : String :=
  String.mk (s.data.map Char.toUpper)

/-- Python `s.lower()` (ASCII). -/
def pyLower (s : String) : String :=
  String.mk (s.data.map Char.toLower)

/-- Python truthiness of an optional string: `None` and `""` are falsy. -/
def truthyS : Option String → Bool
  | none => false
  | some s => s ≠ ""

/-! ## XML element model (`xml.etree.ElementTree.Element`) -/

/-- An XML element: tag (namespace-qualified, as ElementTree renders it),
attributes, text, children.  `text` is `none` when the element has no text
node at all, mirroring `Element.text is None`. -/
inductive Elem : Type where
  | mk (tag : String) (attrs : List (String × String)) (text : Option String)
       (children : List Elem)
deriving Repr

def Elem.tag : Elem → String
  | .mk t _ _ _ => t

def Elem.attrs : Elem → List (String × String)
  | .mk _ a _ _ => a

def Elem.text : Elem → Option String
  | .mk _ _ tx _ => tx

def Elem.children : Elem → List Elem
  | .mk _ _ _ cs => cs

/-- `element.find(tag)`: first direct child with exactly this tag. -/
def Elem.findTag (e : Elem) (tag : String) : Option Elem :=
  e.children.find? (fun c => c.tag = tag)

/-- `element.findall(tag)`: all direct children with exactly this tag,
in document order. -/
def Elem.findAllTag (e : Elem) (tag : String) : List Elem :=
  e.children.filter (fun c => c.tag = tag)

/-- `element.get(attr)`: attribute lookup, `None` when absent. -/
def Elem.getAttr (e : Elem) (attr : String) : Option String :=
  (e.attrs.find? (fun p => p.1 = attr)).map (fun p => p.2)

/-- The namespace prefix ElementTree puts on every APT tag
(`NS` in `parse_apt.py`). -/
def NS : String := "\x7bhttp://www.stsci.edu/JWST/APT\x7d"

/-! ## `trexolists/utils.py` -/

/-- `utils.normalize_text`: strip, then treat `"X"` (case-insensitive)
as `None`. -/
def normalize_text (text : Option String) : Option String :=
  match text with
  | none => none
  | some s =>
    let t := pyStrip s
    if pyUpper t = "X" then none else some t

/-- `utils.safe_find_text`: text of the first child with the given tag,
passed through `normalize_text`; `None` when the child is absent or has no
text. -/
def safe_find_text (element : Elem) (tag : String) : Option String :=
  match element.findTag tag with
  | some found =>
    match found.text with
    | some txt => normalize_text (some txt)
    | none => none
  | none => none

/-! ## `trexolists/parse_apt.py`: template extractors -/

/-- The common 5-field observing-mode record every template extractor
returns (`obs_mode`, `obs_subarray`, `obs_rop`, `obs_groups`,
`obs_opt_elem`). -/
structure ModeResult where
  obs_mode : Option String
  obs_subarray : Option String
  obs_rop : Option String
  obs_groups : Option String
  obs_opt_elem : Option String
deriving Repr, DecidableEq

/-- The all-`None` initial mode record. -/
def initModeResult : ModeResult :=
  { obs_mode := none, obs_subarray := none, obs_rop := none,
    obs_groups := none, obs_opt_elem := none }

/-- Partial record returned by `extract_common_attributes`. -/
structure CommonAttrs where
  obs_subarray : Option String
  obs_rop : Option String
  obs_groups : Option String
deriving Repr, DecidableEq

/-- `extract_common_attributes`: scan template children, keeping the latest
`Subarray` / `ReadoutPattern` / `Groups` match (tag-substring match, raw
`.text`). -/
def extract_common_attributes (templ : Elem) : CommonAttrs :=
  templ.children.foldl
    (fun r ta =>
      if strContains ta.tag "Subarray" then { r with obs_subarray := ta.text }
      else if strContains ta.tag "ReadoutPattern" then { r with obs_rop := ta.text }
      else if strContains ta.tag "Groups" then { r with obs_groups := ta.text }
      else r)
    { obs_subarray := none, obs_rop := none, obs_groups := none }

/-- Partial record returned by `extract_from_exposure`. -/
structure ExposureAttrs where
  obs_rop : Option String
  obs_groups : Option String
deriving Repr, DecidableEq

/-- `extract_from_exposure`: `ReadoutPattern` / `Groups` from a nested
`Exposure` element. -/
def extract_from_exposure (templ_attr : Elem) : ExposureAttrs :=
  templ_attr.children.foldl
    (fun r c =>
      if strContains c.tag "ReadoutPattern" then { r with obs_rop := c.text }
      else if strContains c.tag "Groups" then { r with obs_groups := c.text }
      else r)
    { obs_rop := none, obs_groups := none }

/-- `parse_niriss_soss`: mode constant `"SOSS"`; `Subarray` direct,
readout/groups from the nested `Exposure` child. -/
def parse_niriss_soss (templ : Elem) : ModeResult :=
  templ.children.foldl
    (fun r ta =>
      if strContains ta.tag "Subarray" then { r with obs_subarray := ta.text }
      else if strContains ta.tag "Exposure" then
        let exp := extract_from_exposure ta
        { r with obs_rop := exp.obs_rop, obs_groups := exp.obs_groups }
      else r)
    { initModeResult with obs_mode := some "SOSS" }

/-- `parse_nircam_gts`: mode constant `"GTS"`; common attributes plus the
`LongPupilFilter` optical element. -/
def parse_nircam_gts (templ : Elem) : ModeResult :=
  let common := extract_common_attributes templ
  let r : ModeResult :=
    { obs_mode := some "GTS", obs_subarray := common.obs_subarray,
      obs_rop := common.obs_rop, obs_groups := common.obs_groups,
      obs_opt_elem := none }
  templ.children.foldl
    (fun r ta =>
      if strContains ta.tag "LongPupilFilter" then { r with obs_opt_elem := ta.text }
      else r)
    r

/-- `parse_nirspec_bots`: mode constant `"BOTS"`; common attributes plus the
`Grating` optical element. -/
def parse_nirspec_bots (templ : Elem) : ModeResult :=
  let common := extract_common_attributes templ
  let r : ModeResult :=
    { obs_mode := some "BOTS", obs_subarray := common.obs_subarray,
      obs_rop := common.obs_rop, obs_groups := common.obs_groups,
      obs_opt_elem := none }
  templ.children.foldl
    (fun r ta =>
      if strContains ta.tag "Grating" then { r with obs_opt_elem := ta.text }
      else r)
    r

/-- `parse_miri_lrs`: mode constant `"LRS"`; common attributes only. -/
def parse_miri_lrs (templ : Elem) : ModeResult :=
  let common := extract_common_attributes templ
  { obs_mode := some "LRS", obs_subarray := common.obs_subarray,
    obs_rop := common.obs_rop, obs_groups := common.obs_groups,
    obs_opt_elem := none }

/-- The innermost loop body of `parse_miri_imaging` (over the children of a
`FilterConfig`): the `ReadoutPattern` / `Groups` / `Filter` elif chain. -/
def miriFCStep (r : ModeResult) (c : Elem) : ModeResult :=
  if strContains c.tag "ReadoutPattern" then { r with obs_rop := c.text }
  else if strContains c.tag "Groups" then { r with obs_groups := c.text }
  else if strContains c.tag "Filter" then { r with obs_mode := c.text }
  else r

/-- The middle loop body of `parse_miri_imaging` (over the children of a
`Filters` element): descend into each `FilterConfig`. -/
def miriCfgStep (r : ModeResult) (fc : Elem) : ModeResult :=
  if strContains fc.tag "FilterConfig" then fc.children.foldl miriFCStep r
  else r

/-- The outer loop body of `parse_miri_imaging`: the
`Subarray` / `Filters` elif chain. -/
def miriStep (r : ModeResult) (ta : Elem) : ModeResult :=
  if strContains ta.tag "Subarray" then { r with obs_subarray := ta.text }
  else if strContains ta.tag "Filters" then ta.children.foldl miriCfgStep r
  else r

/-- `parse_miri_imaging`: `Subarray` direct; mode/readout/groups from the
nested `Filters` → `FilterConfig` subtree (each match overwrites, lines
238-251). -/
def parse_miri_imaging (templ : Elem) : ModeResult :=
  templ.children.foldl miriStep initModeResult

/-- `parse_miri_mrs`: `Subarray` and `Detector` direct; readout/groups from
the nested `ExposureList` → `Exposure` subtree (`...Long` tags). -/
def parse_miri_mrs (templ : Elem) : ModeResult :=
  templ.children.foldl
    (fun r ta =>
      if strContains ta.tag "Subarray" then { r with obs_subarray := ta.text }
      else if strContains ta.tag "Detector" then { r with obs_mode := ta.text }
      else if strContains ta.tag "ExposureList" then
        ta.children.foldl
          (fun r exp =>
            if strContains exp.tag "Exposure" then
              exp.children.foldl
                (fun r c =>
                  if strContains c.tag "ReadoutPatternLong" then { r with obs_rop := c.text }
                  else if strContains c.tag "GroupsLong" then { r with obs_groups := c.text }
                  else r)
                r
            else r)
          r
      else r)
    initModeResult

/-- `TEMPLATE_PARSERS`, in the dict's (insertion) iteration order. -/
def TEMPLATE_PARSERS : List (String × (Elem → ModeResult)) :=
  [("NirissSoss", parse_niriss_soss),
   ("NircamGrismTimeSeries", parse_nircam_gts),
   ("NirspecBrightObjectTimeSeries", parse_nirspec_bots),
   ("MiriLRS", parse_miri_lrs),
   ("MiriImaging", parse_miri_imaging),
   ("MiriMRS", parse_miri_mrs)]

/-- Does any template key occur in this template child's tag? -/
def isTemplMatch (t : Elem) : Bool :=
  (TEMPLATE_PARSERS.find? (fun kp => strContains t.tag kp.1)).isSome

/-- The extractor result for a single template child: the first
`TEMPLATE_PARSERS` entry whose key occurs in the tag (the inner
`for ... break` loop), or the all-`None` record when none matches. -/
def applyTemplateParser (t : Elem) : ModeResult :=
  match TEMPLATE_PARSERS.find? (fun kp => strContains t.tag kp.1) with
  | some kp => kp.2 t
  | none => initModeResult

/-- One iteration of the template-dispatch loop: a matching child replaces
all five mode fields with its extractor's result; a non-matching child
leaves the accumulator unchanged. -/
def dispatchStep (acc : ModeResult) (t : Elem) : ModeResult :=
  match TEMPLATE_PARSERS.find? (fun kp => strContains t.tag kp.1) with
  | some kp => kp.2 t
  | none => acc

/-- The template-dispatch loop of `parse_data_requests` (lines 424-441):
walk the `Template` element's children in document order, applying
`dispatchStep` to each. -/
def template_dispatch (children : List Elem) : ModeResult :=
  children.foldl dispatchStep initModeResult

/-! ## `trexolists/parse_apt.py`: `parse_data_requests` -/

/-- The `TargetID`-splitting block of `parse_data_requests`
(lines 402-407): `ws_idx = obs_target.find(' ')`; when `ws_idx >= 1` the
leading token becomes the target number and the (stripped) remainder the
name; otherwise both stay as they were. -/
def splitTargetRef (t : String) : Option String × String :=
  let pre := t.data.takeWhile (fun c => c ≠ ' ')
  let suf := t.data.dropWhile (fun c => c ≠ ' ')
  match suf with
  | [] => (none, t)
  | _ :: _ =>
    if pre.length ≥ 1 then (some (String.mk pre), pyStrip (String.mk suf))
    else (none, t)

/-- One observation dictionary produced by `parse_data_requests`. -/
structure ObsRec where
  ProposalID : Option String
  Label : String
  Obs_Number : Option String
  TargetID : Option String
  Target_Number : Option String
  Label2 : Option String
  Instrument : Option String
  ObservingMode : Option String
  ScienceDuration : Option String
  CoordinatedParallel : Option String
  ZeroPhase : Option String
  Period : Option String
  PhaseStart : Option String
  PhaseEnd : Option String
  TimeSeriesObservation : Option Nat
  Subarray : Option String
  ReadoutPattern : Option String
  Groups : Option String
  GratingGrism : Option String
deriving Repr, DecidableEq

/-- The body of `parse_data_requests`' inner observation loop.  Returns
`Except.error "AttributeError"` on the one uncaught exception the code can
raise: `obs_target.strip()` when the observation has no (usable) `TargetID`
and a filter is given (`None` has no `.strip()`).  Returns `Except.ok none`
when the observation is filtered out, `Except.ok (some rec)` otherwise. -/
def processObservation (proposal_id : Option String) (dr_label : String)
    (target_name : Option String) (observation : Elem) :
    Except String (Option ObsRec) :=
  let obs_number := safe_find_text observation (NS ++ "Number")
  let obs_target0 := safe_find_text observation (NS ++ "TargetID")
  let obs_label2 := safe_find_text observation (NS ++ "Label")
  let obs_instrument := safe_find_text observation (NS ++ "Instrument")
  -- `if obs_target:` — split only when truthy
  let split : Option String × Option String :=
    match obs_target0 with
    | some t =>
      if t ≠ "" then
        let p := splitTargetRef t
        (p.1, some p.2)
      else (none, obs_target0)
    | none => (none, none)
  let obs_target_id := split.1
  let obs_target := split.2
  -- `if target_name is not None: if obs_target.strip() != target_name.strip(): continue`
  let keep : Except String Bool :=
    match target_name with
    | some tn =>
      match obs_target with
      | none => Except.error "AttributeError"
      | some t => Except.ok (pyStrip t = pyStrip tn)
    | none => Except.ok true
  match keep with
  | Except.error e => Except.error e
  | Except.ok false => Except.ok none
  | Except.ok true =>
    let tmpl : ModeResult :=
      match observation.findTag (NS ++ "Template") with
      | some template => template_dispatch template.children
      | none => initModeResult
    let obs_sci_dur := safe_find_text observation (NS ++ "ScienceDuration")
    let obs_coord_par := safe_find_text observation (NS ++ "CoordinatedParallel")
    let sr := observation.findTag (NS ++ "SpecialRequirements")
    let pzp : Option Elem :=
      match sr with
      | some sre => sre.findTag (NS ++ "PeriodZeroPhase")
      | none => none
    let obs_zero_phase := match pzp with
      | some p => p.getAttr "ZeroPhase"
      | none => none
    let obs_period := match pzp with
      | some p => p.getAttr "Period"
      | none => none
    let obs_phase_start := match pzp with
      | some p => p.getAttr "PhaseStart"
      | none => none
    let obs_phase_end := match pzp with
      | some p => p.getAttr "PhaseEnd"
      | none => none
    let obs_tso : Option Nat :=
      match sr with
      | some sre =>
        match sre.findTag (NS ++ "TimeSeriesObservation") with
        | some _ => some 1
        | none => none
      | none => none
    Except.ok (some
      { ProposalID := proposal_id
        Label := dr_label
        Obs_Number := obs_number
        TargetID := obs_target
        Target_Number := obs_target_id
        Label2 := obs_label2
        Instrument := obs_instrument
        ObservingMode := tmpl.obs_mode
        ScienceDuration := obs_sci_dur
        CoordinatedParallel := obs_coord_par
        ZeroPhase := obs_zero_phase
        Period := obs_period
        PhaseStart := obs_phase_start
        PhaseEnd := obs_phase_end
        TimeSeriesObservation := obs_tso
        Subarray := tmpl.obs_subarray
        ReadoutPattern := tmpl.obs_rop
        Groups := tmpl.obs_groups
        GratingGrism := tmpl.obs_opt_elem })

/-- `parse_data_requests`: walk `DataRequests` → `ObservationGroup` →
`Observation`, resolving each group's label (`"NONE"` default) and
collecting the observation dictionaries.  An absent `DataRequests` section
yields the empty list. -/
def parse_data_requests (root : Elem) (proposal_id : Option String)
    (target_name : Option String) : Except String (List ObsRec) :=
  match root.findTag (NS ++ "DataRequests") with
  | none => Except.ok []
  | some dr =>
    (dr.findAllTag (NS ++ "ObservationGroup")).foldlM
      (fun acc og =>
        let dr_label :=
          match safe_find_text og (NS ++ "Label") with
          | none => "NONE"
          | some l => l
        (og.findAllTag (NS ++ "Observation")).foldlM
          (fun acc2 obs => do
            match ← processObservation proposal_id dr_label target_name obs with
            | some o => pure (acc2 ++ [o])
            | none => pure acc2)
          acc)
      []

/-! ## `trexolists/parse_vsr.py` -/

/-- Modelled from the spec: `remove_all_whitespace` is imported from
`trexolists.utils` by `parse_vsr.py` (line 4) but its definition is absent
from the sources; per §4.1 of the spec it "strips all whitespace characters
(not just leading/trailing) for robust equality comparisons". -/
def remove_all_whitespace (s : String) : String :=
  String.mk (s.data.filter (fun c => ¬ isPySpace c))

/-- The `repeatedBy` / `repeatOf` sub-record. -/
structure RepeatLink where
  status : String
  program : Option String
  observation : Option String
  visit : Option String
  problemID : Option String
deriving Repr, DecidableEq

/-- `parse_repeated_by` and `parse_repeat_of` share this shape: status
`"No"` with all links unset when the child is absent, else `"Yes"` with the
four looked-up fields. -/
def parse_repeat_link (element : Elem) (tag : String) : RepeatLink :=
  match element.findTag tag with
  | none =>
    { status := "No", program := none, observation := none,
      visit := none, problemID := none }
  | some rb =>
    { status := "Yes"
      program := safe_find_text rb "program"
      observation := safe_find_text rb "observation"
      visit := safe_find_text rb "visit"
      problemID := safe_find_text rb "problemID" }

/-- `parse_repeated_by`. -/
def parse_repeated_by (element : Elem) : RepeatLink :=
  parse_repeat_link element "repeatedBy"

/-- `parse_repeat_of`. -/
def parse_repeat_of (element : Elem) : RepeatLink :=
  parse_repeat_link element "repeatOf"

/-- One visit dictionary produced by `parse_visits`. -/
structure VisitRec where
  observation : Option String
  visit : Option String
  status : Option String
  target : Option String
  configuration : Option String
  hours : Option String
  longRangePlanStatus : Option String
  planWindow : Option String
  startTime : Option String
  endTime : Option String
  repeatedBy : RepeatLink
  repeatOf : RepeatLink
deriving Repr, DecidableEq

/-- Build the visit dictionary from a `visit` element (with the already
computed target text). -/
def mkVisitRec (ve : Elem) (vt : Option String) : VisitRec :=
  { observation := ve.getAttr "observation"
    visit := ve.getAttr "visit"
    status := safe_find_text ve "status"
    target := vt
    configuration := safe_find_text ve "configuration"
    hours := safe_find_text ve "hours"
    longRangePlanStatus := safe_find_text ve "longRangePlanStatus"
    planWindow := safe_find_text ve "planWindow"
    startTime := safe_find_text ve "startTime"
    endTime := safe_find_text ve "endTime"
    repeatedBy := parse_repeated_by ve
    repeatOf := parse_repeat_of ve }

/-- `parse_visits`: walk top-level `visit` elements; when a target filter is
given, skip a visit whose target text is `None` or whose whitespace-stripped
target differs from the whitespace-stripped filter. -/
def parse_visits (root : Elem) (target_name : Option String) : List VisitRec :=
  (root.findAllTag "visit").filterMap
    (fun ve =>
      let vt := safe_find_text ve "target"
      match target_name with
      | some tn =>
        match vt with
        | none => none
        | some t =>
          if remove_all_whitespace t ≠ remove_all_whitespace tn then none
          else some (mkVisitRec ve vt)
      | none => some (mkVisitRec ve vt))

/-! ## `trexolists/compare_data.py` -/

/-- A Python value as it reaches `normalize_value`: `None`, a float `NaN`
(from pandas), a number (int or float — ints are converted to float by the
code, so one numeric constructor suffices), or a string.  Other Python
types do not occur in these rows. -/
inductive PVal : Type where
  | pnone
  | pnan
  | pnum (q : ℚ)
  | pstr (s : String)
deriving Repr, DecidableEq

/-- The classifier's output: the `(normalized_value, type_category)` pair of
`normalize_value` as one tagged value. -/
inductive NormVal : Type where
  | nnone
  | nnum (q : ℚ)
  | nstr (s : String)
deriving Repr, DecidableEq

/-- All-digit check plus decimal value; `none` on the empty list or any
non-digit. -/
def digitsToNat (cs : List Char) : Option Nat :=
  match cs with
  | [] => none
  | _ =>
    if cs.all Char.isDigit then
      some (cs.foldl (fun a c => a * 10 + (c.toNat - 48)) 0)
    else none

/-- The builtin `int(s)` on an already-stripped string: optional sign then
decimal digits.  (Underscore separators and non-ASCII digits, which Python
also accepts, do not occur in these documents and are not modelled.) -/
def parseIntPy (s : String) : Option Int :=
  match s.data with
  | '+' :: rest => (digitsToNat rest).map Int.ofNat
  | '-' :: rest => (digitsToNat rest).map (fun n => -(n : Int))
  | ds => (digitsToNat ds).map Int.ofNat

/-- Mantissa of a float literal: `digits`, `digits.`, `digits.digits` or
`.digits`, valued as a rational. -/
def parseMantissa (cs : List Char) : Option ℚ :=
  let ip := cs.takeWhile (fun c => c ≠ '.')
  let rest := cs.dropWhile (fun c => c ≠ '.')
  match rest with
  | [] =>
    (digitsToNat ip).map (fun n => (n : ℚ))
  | _ :: frac =>
    if frac.any (fun c => c = '.') then none
    else if ip.isEmpty then
      (digitsToNat frac).map (fun f => (f : ℚ) / (10 : ℚ) ^ frac.length)
    else if frac.isEmpty then
      (digitsToNat ip).map (fun n => (n : ℚ))
    else
      match digitsToNat ip, digitsToNat frac with
      | some n, some f => some ((n : ℚ) + (f : ℚ) / (10 : ℚ) ^ frac.length)
      | _, _ => none

/-- The builtin `float(s)` on an already-stripped string, for finite decimal
literals: optional sign, mantissa, optional `e`/`E` exponent.  (`"inf"`,
`"nan"` and underscore separators are not modelled; IEEE rounding is
idealized to exact rational value.) -/
def parseFloatPy (s : String) : Option ℚ :=
  let (sgn, body) : ℚ × List Char :=
    match s.data with
    | '+' :: r => (1, r)
    | '-' :: r => (-1, r)
    | r => (1, r)
  let mant := body.takeWhile (fun c => c ≠ 'e' ∧ c ≠ 'E')
  let erest := body.dropWhile (fun c => c ≠ 'e' ∧ c ≠ 'E')
  let expo : Option Int :=
    match erest with
    | [] => some 0
    | _ :: etail =>
      match etail with
      | '+' :: ds => (digitsToNat ds).map Int.ofNat
      | '-' :: ds => (digitsToNat ds).map (fun n => -(n : Int))
      | ds => (digitsToNat ds).map Int.ofNat
  match parseMantissa mant, expo with
  | some m, some e =>
    some (sgn * m * (if 0 ≤ e then (10 : ℚ) ^ e.toNat else 1 / (10 : ℚ) ^ (-e).toNat))
  | _, _ => none

/-- `compare_data.normalize_value`: `None`/NaN ⇒ none; numbers ⇒ numeric;
strings: strip, blank / `"NONE"` / `"NULL"` / `"X"` (case-insensitive) ⇒
none, else try `int` (no `.` and no `e`) or `float`, falling back to the
original string. -/
def normalize_value (v : PVal) : NormVal :=
  match v with
  | .pnone => .nnone
  | .pnan => .nnone
  | .pnum q => .nnum q
  | .pstr s =>
    let t := pyStrip s
    if t = "" then .nnone
    else if pyUpper t = "NONE" ∨ pyUpper t = "NULL" ∨ pyUpper t = "X" then .nnone
    else if ¬ strContains t "." ∧ ¬ strContains (pyLower t) "e" then
      match parseIntPy t with
      | some n => .nnum (n : ℚ)
      | none => .nstr s
    else
      match parseFloatPy t with
      | some q => .nnum q
      | none => .nstr s

/-- Outcome of comparing one field pair in `compare_values`' field loop.
`discrepancy` and `typeMismatch` both print a "Difference found" line; the
latter carries the extra "type mismatch" tag. -/
inductive CmpOutcome : Type where
  | equal
  | discrepancy
  | typeMismatch
deriving Repr, DecidableEq

/-- The absolute tolerance `1e-9` of the numeric comparison. -/
def cmpTol : ℚ := 1 / 1000000000

/-- One iteration of `compare_values`' field loop (lines 117-143): normalize
the ground-truth row value and the candidate value, then the
none/numeric/string case analysis. -/
def compare_field (row_value value : PVal) : CmpOutcome :=
  let rn := normalize_value row_value
  let vn := normalize_value value
  match rn, vn with
  | .nnone, .nnone => .equal
  | .nnone, _ => .discrepancy
  | _, .nnone => .discrepancy
  | .nnum a, .nnum b => if |a - b| > cmpTol then .discrepancy else .equal
  | .nstr a, .nstr b => if a ≠ b then .discrepancy else .equal
  | _, _ => .typeMismatch

/-- The field-loop skip predicate: astrophysical parameters prefixed
`sy_` / `pl_` / `st_` are never compared. -/
def skippedKey (k : String) : Bool :=
  "sy_".isPrefixOf k || "pl_".isPrefixOf k || "st_".isPrefixOf k

/-! ## `trexolists/get_summary.py`: `parse_vsr_date` -/

/-- The fixed 12-entry month table. -/
def month_map : List (String × String) :=
  [("Jan", "01"), ("Feb", "02"), ("Mar", "03"), ("Apr", "04"),
   ("May", "05"), ("Jun", "06"), ("Jul", "07"), ("Aug", "08"),
   ("Sep", "09"), ("Oct", "10"), ("Nov", "11"), ("Dec", "12")]

/-- Python `s.zfill(2)`: left-pad with `'0'` to length 2, keeping a leading
sign in front. -/
def zfill2 (s : String) : String :=
  if s.length ≥ 2 then s
  else
    match s.data with
    | [] => "00"
    | [c] => if c = '+' ∨ c = '-' then String.mk [c, '0'] else String.mk ['0', c]
    | _ => s

/-- `parse_vsr_date`.  `decYear` models the external
`round(Time(iso_string, format='isot').decimalyear, 3)` computation:
`none` stands for the astropy call raising (caught by the function's
blanket `except`), `some q` for it returning the rounded decimal year.
The input is `Option String` because Python callers may pass `None`
(`if not date_string: return None, None`). -/
def parse_vsr_date (decYear : String → Option ℚ) (date_string : Option String) :
    Option ℚ × Option String :=
  match date_string with
  | none => (none, none)
  | some ds =>
    if ds = "" then (none, none)
    else
      match pySplitComma ds with
      | [] => (none, none)
      | [_] => (none, none)
      | p0 :: p1 :: _ =>
        match pySplitWS (pyStrip p0) with
        | month :: day :: _ =>
          match pySplitWS (pyStrip p1) with
          | year :: time :: _ =>
            -- `if not all([month, day, year, time])`
            if month = "" ∨ day = "" ∨ year = "" ∨ time = "" then (none, none)
            else
              match month_map.lookup month with
              | none => (none, none)
              | some month_num =>
                let day2 := zfill2 day
                let iso := year ++ "-" ++ month_num ++ "-" ++ day2 ++ "T" ++ time
                match decYear iso with
                | none => (none, none)
                | some dy =>
                  (some dy,
                   some (year ++ "-" ++ month_num ++ "-" ++ day2 ++ "--" ++ time))
          | _ => (none, none)
        | _ => (none, none)

/-- The structural deviations named by the spec for the date adapter:
missing comma, too few tokens on either side of the comma, or a month not
in the 12-entry table. -/
def deviantShape (ds : String) : Bool :=
  let parts := pySplitComma ds
  let mdp := pySplitWS (pyStrip (parts.headD ""))
  let ytp := pySplitWS (pyStrip (parts.getD 1 ""))
  decide (parts.length < 2) || decide (mdp.length < 2) ||
    decide (ytp.length < 2) || (month_map.lookup (mdp.headD "")).isNone

/-! ## `trexolists/get_summary.py`: `summary_info` -/

/-- The slice of a target dictionary that `summary_info` reads
(`TargetName` for matching, `EquatorialCoordinates` for RA/Dec); the other
keys produced by `parse_targets` are never consumed by the reconciler. -/
structure TargetRec where
  TargetName : Option String
  EquatorialCoordinates : Option String
deriving Repr, DecidableEq

/-- The slice of the `apt_dict` that `summary_info` reads. -/
structure AptDict where
  ProposalID : Option String
  Cycle : Option String
  LastName : Option String
  ProprietaryPeriod : Option String
  Targets : List TargetRec
  DataRequests : List ObsRec
deriving Repr, DecidableEq

/-- The slice of the `vsr_dict` that `summary_info` reads.  A present dict
always carries its five keys, so `if vsr_dict:` is truthy exactly when the
argument is not `None`. -/
structure VsrDict where
  Visits : List VisitRec
deriving Repr, DecidableEq

/-- The summary record (the uncommented keys of `summary_info`'s `result`
dict).  `StartUTDecimal` and `Hours` are numeric in Python (decimal year,
`float(hours)`), hence `Option ℚ` here. -/
structure SummaryRec where
  StarName : String
  PlanetLetter : String
  Event : Option String
  Program : Option String
  Cycle : Option String
  Obs : Option String
  VisitStatus : Option String
  ObservingMode : Option String
  Subarray : Option String
  ReadoutPattern : Option String
  Groups : Option String
  StartUTDecimal : Option ℚ
  StartUTFormatted : Option String
  Hours : Option ℚ
  PIName : Option String
  ProprietaryPeriod : Option String
  RA : Option String
  Dec : Option String
  PlanWindow : Option String
deriving Repr, DecidableEq

/-- The `Instrument + " " + ObservingMode` formatting
(`if instrument and obs_mode: ... elif instrument: ... elif obs_mode: ...`). -/
def combineMode (instrument obs_mode : Option String) : Option String :=
  if truthyS instrument && truthyS obs_mode then
    some (instrument.getD "" ++ " " ++ obs_mode.getD "")
  else if truthyS instrument then instrument
  else if truthyS obs_mode then obs_mode
  else none

/-- `matching_obs = [obs for obs in data_requests if obs.get("TargetID") == target_name]`
(exact, untrimmed equality; a `None` id never equals a string). -/
def obs_matching (drs : List ObsRec) (tn : String) : List ObsRec :=
  drs.filter (fun o => o.TargetID = some tn)

/-- The first visit whose `observation` attribute equals the observation
number (string comparison; a `None` attribute never matches). -/
def visit_matching (visits : List VisitRec) (onum : String) : Option VisitRec :=
  visits.find? (fun v => v.observation = some onum)

/-- `summary_info`.  `pyFloat` models the builtin `float(str)` in the
`Hours` conversion (`none` = `ValueError`, caught and replaced by `None`);
`decYear` is threaded to `parse_vsr_date`. -/
def summary_info (pyFloat : String → Option ℚ) (decYear : String → Option ℚ)
    (apt : AptDict) (target_name planet_letter : String)
    (vsr : Option VsrDict) : SummaryRec :=
  let base : SummaryRec :=
    { StarName := target_name
      PlanetLetter := planet_letter
      Event := none
      Program := if truthyS apt.ProposalID then apt.ProposalID else none
      Cycle := apt.Cycle
      Obs := none
      VisitStatus := none
      ObservingMode := none
      Subarray := none
      ReadoutPattern := none
      Groups := none
      StartUTDecimal := none
      StartUTFormatted := none
      Hours := none
      PIName := apt.LastName
      ProprietaryPeriod := apt.ProprietaryPeriod
      RA := none
      Dec := none
      PlanWindow := none }
  let r1 : SummaryRec :=
    match obs_matching apt.DataRequests target_name with
    | [] => base
    | obs :: _ =>
      let r : SummaryRec :=
        { base with
          Obs := obs.Obs_Number
          ObservingMode := combineMode obs.Instrument obs.ObservingMode
          Subarray := obs.Subarray
          ReadoutPattern := obs.ReadoutPattern
          Groups := obs.Groups }
      match vsr with
      | none => r
      | some vd =>
        match obs.Obs_Number with
        | none => r
        | some onum =>
          if onum = "" then r
          else
            match visit_matching vd.Visits onum with
            | none => r
            | some mv =>
              { r with
                VisitStatus := mv.status
                Hours :=
                  (match mv.hours with
                   | some hs => if hs = "" then none else pyFloat hs
                   | none => none)
                StartUTDecimal :=
                  (match mv.startTime with
                   | some st =>
                     if st = "" then none
                     else (parse_vsr_date decYear (some st)).1
                   | none => none)
                StartUTFormatted :=
                  (match mv.startTime with
                   | some st =>
                     if st = "" then none
                     else (parse_vsr_date decYear (some st)).2
                   | none => none)
                PlanWindow :=
                  (match mv.planWindow with
                   | some pw => if pw = "" then some "X" else some pw
                   | none => some "X") }
  match apt.Targets.find? (fun t => t.TargetName = some target_name) with
  | none => r1
  | some mt =>
    match mt.EquatorialCoordinates with
    | none => r1
    | some eq_coords =>
      if eq_coords = "" then r1
      else
        let parts := pySplitWS eq_coords
        if parts.length ≥ 6 then
          { r1 with
            RA := some (parts.getD 0 "" ++ ":" ++ parts.getD 1 "" ++ ":" ++ parts.getD 2 "")
            Dec := some (parts.getD 3 "" ++ ":" ++ parts.getD 4 "" ++ ":" ++ parts.getD 5 "") }
        else r1

/-! ## Specification-side definitions used to state the claims -/

/-- Last element of a list of updates, with a default: the value an
overwrite-style loop leaves behind. -/
def lastD : List (Option String) → Option String → Option String
  | [], d => d
  | x :: xs, _ => lastD xs x

/-- Guard selecting the children of a `FilterConfig` that update the mode
(the third branch of the elif chain). -/
def miriModeGuard (c : Elem) : Bool :=
  !strContains c.tag "ReadoutPattern" && !strContains c.tag "Groups" &&
    strContains c.tag "Filter"

/-- Guard selecting the children of a `FilterConfig` that update the
readout pattern (the first branch of the elif chain). -/
def miriRopGuard (c : Elem) : Bool :=
  strContains c.tag "ReadoutPattern"

/-- Guard selecting the children of a `FilterConfig` that update the groups
count (the second branch of the elif chain). -/
def miriGroupsGuard (c : Elem) : Bool :=
  !strContains c.tag "ReadoutPattern" && strContains c.tag "Groups"

/-- Guard selecting the `Filters` children of a MIRI-Imaging template
(elif: not a `Subarray` match). -/
def miriFiltersGuard (ta : Elem) : Bool :=
  !strContains ta.tag "Subarray" && strContains ta.tag "Filters"

/-- Guard selecting the `FilterConfig` children of a `Filters` element. -/
def miriCfgGuard (fc : Elem) : Bool :=
  strContains fc.tag "FilterConfig"

/-- The stream of values written to one mode field during the
`Filters` → `FilterConfig` traversal of a MIRI-Imaging template, in
document order, for the field whose innermost guard is `g`. -/
def miriUpdates (g : Elem → Bool) (templ : Elem) : List (Option String) :=
  (templ.children.filter miriFiltersGuard).flatMap
    (fun ta =>
      (ta.children.filter miriCfgGuard).flatMap
        (fun fc => (fc.children.filter g).map Elem.text))

/-- The claim's reading of the target-reference split, following the spec's
words: split at the first whitespace character (of any kind) into the
leading token and the stripped remainder; unsplit when there is no
whitespace (or no leading token). -/
def firstWhitespaceSplit (t : String) : Option String × String :=
  let pre := t.data.takeWhile (fun c => ¬ isPySpace c)
  let suf := t.data.dropWhile (fun c => ¬ isPySpace c)
  match suf with
  | [] => (none, t)
  | _ :: _ =>
    if pre.length ≥ 1 then (some (String.mk pre), pyStrip (String.mk suf))
    else (none, t)

/-! ## Concrete fixtures for witnesses and counterexamples -/

/-- A template child whose tag matches the `NirissSoss` key. -/
def sossChild : Elem := Elem.mk "nsoss:NirissSoss" [] none []

/-- A template child whose tag matches the `MiriLRS` key. -/
def lrsChild : Elem := Elem.mk "mlrs:MiriLRS" [] none []

/-- A MIRI-Imaging template whose `Filters` child holds two
`FilterConfig`s with different `Filter` values. -/
def miriTwoConfigs : Elem :=
  Elem.mk "mi:MiriImaging" [] none
    [Elem.mk "mi:Filters" [] none
      [Elem.mk "mi:FilterConfig" [] none [Elem.mk "mi:Filter" [] (some "F770W") []],
       Elem.mk "mi:FilterConfig" [] none [Elem.mk "mi:Filter" [] (some "F1000W") []]]]

/-- An APT document whose single observation has no `TargetID` child. -/
def docNoTargetID : Elem :=
  Elem.mk "JwstProposal" [] none
    [Elem.mk (NS ++ "DataRequests") [] none
      [Elem.mk (NS ++ "ObservationGroup") [] none
        [Elem.mk (NS ++ "Observation") [] none
          [Elem.mk (NS ++ "Number") [] (some "1") []]]]]

/-- A visit-status document with one matching visit (target text differing
from the filter only in whitespace) and one visit without a target child. -/
def vsrTwoVisits : Elem :=
  Elem.mk "visitStatusReport" [] none
    [Elem.mk "visit" [("observation", "2"), ("visit", "1")] none
      [Elem.mk "target" [] (some " WASP - 96 ") [],
       Elem.mk "status" [] (some "Archived") []],
     Elem.mk "visit" [("observation", "3"), ("visit", "1")] none
      [Elem.mk "status" [] (some "Scheduled") []]]

/-- A matched observation record for the reconciler witnesses. -/
def obsW : ObsRec :=
  { ProposalID := some "2734", Label := "NONE", Obs_Number := some "2",
    TargetID := some "WASP-96", Target_Number := some "1", Label2 := none,
    Instrument := some "NIRISS", ObservingMode := some "SOSS",
    ScienceDuration := some "14400", CoordinatedParallel := some "false",
    ZeroPhase := none, Period := none, PhaseStart := none, PhaseEnd := none,
    TimeSeriesObservation := some 1, Subarray := some "SUBSTRIP256",
    ReadoutPattern := some "NISRAPID", Groups := some "14",
    GratingGrism := none }

/-- The empty repeat link (`status "No"`). -/
def noRepeat : RepeatLink :=
  { status := "No", program := none, observation := none, visit := none,
    problemID := none }

/-- A matched visit record without a recorded plan window. -/
def visitW : VisitRec :=
  { observation := some "2", visit := some "1", status := some "Archived",
    target := some "WASP-96", configuration := some "NIRISS",
    hours := some "7.51", longRangePlanStatus := none, planWindow := none,
    startTime := some "Jun 21, 2022 02:41:18", endTime := none,
    repeatedBy := noRepeat, repeatOf := noRepeat }

/-- An `apt_dict` slice whose only observation is `obsW`. -/
def aptW : AptDict :=
  { ProposalID := some "2734", Cycle := some "1",
    LastName := some "Pontoppidan", ProprietaryPeriod := some "12",
    Targets := [], DataRequests := [obsW] }

/-- A `vsr_dict` slice whose only visit is `visitW`. -/
def vsrW : VsrDict := { Visits := [visitW] }

/-! ## Helper lemmas -/

theorem takeWhile_dropWhile_append_cons {α : Type} (p : α → Bool) (l1 : List α)
    (c : α) (l2 : List α) (h1 : ∀ x ∈ l1, p x = true) (hc : p c = false) :
    (l1 ++ c :: l2).takeWhile p = l1 ∧ (l1 ++ c :: l2).dropWhile p = c :: l2 := by
  induction l1 with
  | nil => simp [List.takeWhile_cons, List.dropWhile_cons, hc]
  | cons a l ih =>
    have ha : p a = true := h1 a (by simp)
    have h := ih (fun x hx => h1 x (by simp [hx]))
    simp [List.takeWhile_cons, List.dropWhile_cons, ha, h.1, h.2]

theorem pyStrip_cons_space (rd : List Char) :
    pyStrip (String.mk (' ' :: rd)) = pyStrip (String.mk rd) := by
  have h : isPySpace ' ' = true := rfl
  simp [pyStrip, List.dropWhile_cons, h]

/-! ## C5 -/

/-- C5 (corrected): at a child whose text is whitespace-only, `findText`
returns the empty string, a set value — not unset as the claim states. -/
theorem c5_counterexample :
    safe_find_text (Elem.mk "r" [] none [Elem.mk "T" [] (some "   ") []]) "T"
      = some "" ∧ (some "" : Option String) ≠ none := by
  constructor
  · decide
  · decide

/-- C5 (amended): `findText` returns unset exactly when the child is
absent, has no text, or its trimmed text case-insensitively equals the
sentinel `"X"`; any other text — whitespace-only included — comes back
trimmed (whitespace-only text therefore yields the empty string, a set
value). -/
theorem c5_safe_find_text (e : Elem) (tag : String) :
    (safe_find_text e tag = none ↔
      e.findTag tag = none ∨
      (∃ f, e.findTag tag = some f ∧ f.text = none) ∨
      (∃ f s, e.findTag tag = some f ∧ f.text = some s ∧
        pyUpper (pyStrip s) = "X")) ∧
    (∀ f s, e.findTag tag = some f → f.text = some s →
      pyUpper (pyStrip s) ≠ "X" → safe_find_text e tag = some (pyStrip s)) := by
  constructor
  · cases hf : e.findTag tag with
    | none => simp [safe_find_text, hf]
    | some f =>
      cases ht : f.text with
      | none => simp [safe_find_text, normalize_text, hf, ht]
      | some s =>
        by_cases hx : pyUpper (pyStrip s) = "X"
        · simp [safe_find_text, normalize_text, hf, ht, hx]
        · simp [safe_find_text, normalize_text, hf, ht, hx]
  · intro f s hf ht hx
    simp [safe_find_text, normalize_text, hf, ht, hx]

/-- C5 witness: a non-sentinel text comes back trimmed. -/
theorem c5_witness :
    safe_find_text (Elem.mk "r" [] none [Elem.mk "T" [] (some " val ") []]) "T"
      = some "val" := by
  have h := (c5_safe_find_text
      (Elem.mk "r" [] none [Elem.mk "T" [] (some " val ") []]) "T").2
      (Elem.mk "T" [] (some " val ") []) " val " rfl rfl (by decide)
  exact h.trans (by decide)

/-! ## C9 -/

/-- C9 (counterexample): on `"1\tWASP-96"` — whose only whitespace is a
tab — the code does not split, while the claim's first-whitespace-boundary
split produces `("1", "WASP-96")`. -/
theorem c9_counterexample :
    splitTargetRef "1\tWASP-96" = (none, "1\tWASP-96") ∧
    firstWhitespaceSplit "1\tWASP-96" = (some "1", "WASP-96") ∧
    splitTargetRef "1\tWASP-96" ≠ firstWhitespaceSplit "1\tWASP-96" := by
  decide

/-- C9 (amended): the target reference is split on the first space
character `' '` (not on general whitespace): text containing a space after
a non-empty space-free leading token splits into that token and the
stripped remainder; text with no space at all is left unsplit with the
number unset. -/
theorem c9_splitTargetRef (t : String) :
    (¬ ' ' ∈ t.data → splitTargetRef t = (none, t)) ∧
    (∀ nd rd, t.data = nd ++ ' ' :: rd → nd ≠ [] → ' ' ∉ nd →
      splitTargetRef t = (some (String.mk nd), pyStrip (String.mk rd))) := by
  constructor
  · intro h
    unfold splitTargetRef
    have hdrop : t.data.dropWhile (fun c => decide (c ≠ ' ')) = [] := by
      rw [List.dropWhile_eq_nil_iff]
      intro x hx
      simp only [decide_eq_true_eq]
      exact fun he => h (he ▸ hx)
    simp only [hdrop]
  · intro nd rd ht hnd hns
    unfold splitTargetRef
    rw [ht]
    have h := takeWhile_dropWhile_append_cons (fun c => decide (c ≠ ' ')) nd ' ' rd
      (fun x hx => by
        simp only [decide_eq_true_eq]
        exact fun he => hns (he ▸ hx))
      (by simp)
    simp only [h.1, h.2]
    have hlen : 1 ≤ nd.length := by
      cases nd with
      | nil => exact absurd rfl hnd
      | cons a l => exact Nat.succ_le_succ (Nat.zero_le _)
    simp only [ge_iff_le, hlen, if_pos]
    rw [pyStrip_cons_space]

/-- C9 witness: the claim's own example, through the amended theorem. -/
theorem c9_witness : splitTargetRef "1 WASP-96" = (some "1", "WASP-96") := by
  have h := (c9_splitTargetRef "1 WASP-96").2 "1".data "WASP-96".data
    (by decide) (by decide) (by decide)
  exact h.trans (by decide)

/-! ## C7 -/

/-- C7: any input whose structure deviates from the
`"<Mon> <Day>, <Year> <HH:MM:SS>"` shape — no comma, too few tokens on
either side, or an unknown month — makes `parse_vsr_date` return the pair
of unset values, whatever the external decimal-year computation would do;
the embedding is total, so no exception reaches the caller. -/
theorem c7_parse_vsr_date_deviant (decYear : String → Option ℚ) (ds : String)
    (h : deviantShape ds = true) :
    parse_vsr_date decYear (some ds) = (none, none) := by
  unfold deviantShape at h
  unfold parse_vsr_date
  by_cases hds : ds = ""
  · simp [hds]
  · simp only [if_neg hds]
    cases hsplit : pySplitComma ds with
    | nil => simp
    | cons p0 rest =>
      cases rest with
      | nil => simp
      | cons p1 rest2 =>
        rw [hsplit] at h
        simp only [List.headD_cons, List.getD_cons_succ, List.getD_cons_zero] at h
        cases hmdp : pySplitWS (pyStrip p0) with
        | nil => simp [hmdp]
        | cons month mtail =>
          cases mtail with
          | nil => simp [hmdp]
          | cons day mtail2 =>
            cases hytp : pySplitWS (pyStrip p1) with
            | nil => simp [hmdp, hytp]
            | cons year ytail =>
              cases ytail with
              | nil => simp [hmdp, hytp]
              | cons time ytail2 =>
                simp only [hmdp, hytp]
                simp only [hmdp, hytp] at h
                simp only [List.length_cons, List.headD_cons, Bool.or_eq_true,
                  decide_eq_true_eq, Option.isNone_iff_eq_none] at h
                have hlook : month_map.lookup month = none := by
                  rcases h with ((h | h) | h) | h
                  · omega
                  · omega
                  · omega
                  · exact h
                by_cases hemp : month = "" ∨ day = "" ∨ year = "" ∨ time = ""
                · simp [hemp]
                · simp [hemp, hlook]

/-- C7 witness: a comma-less string yields two unset values even when the
external decimal-year computation would succeed. -/
theorem c7_witness :
    parse_vsr_date (fun _ => some 2022) (some "not a date") = (none, none) :=
  c7_parse_vsr_date_deviant (fun _ => some 2022) "not a date" (by decide)

/-! ## C4 -/

/-- C4: the field comparator normalizes both sides through the three-way
classifier and then decides: both-none equal; exactly-one-none discrepancy;
both-numeric equal within absolute tolerance `1e-9`; both-string exact
equality; numeric-vs-string always the tagged type mismatch.  Ground truth
`5` vs candidate `"5"` is equal; ground truth `"X"` vs unset candidate is
equal; ground truth `5` vs candidate `"5a"` is a type mismatch. -/
theorem c4_compare_field (v w : PVal) :
    (normalize_value v = .nnone → normalize_value w = .nnone →
      compare_field v w = .equal) ∧
    (normalize_value v = .nnone → normalize_value w ≠ .nnone →
      compare_field v w = .discrepancy) ∧
    (normalize_value v ≠ .nnone → normalize_value w = .nnone →
      compare_field v w = .discrepancy) ∧
    (∀ a b, normalize_value v = .nnum a → normalize_value w = .nnum b →
      (compare_field v w = .equal ↔ |a - b| ≤ cmpTol)) ∧
    (∀ a b, normalize_value v = .nstr a → normalize_value w = .nstr b →
      (compare_field v w = .equal ↔ a = b)) ∧
    (∀ a b, normalize_value v = .nnum a → normalize_value w = .nstr b →
      compare_field v w = .typeMismatch) ∧
    (∀ a b, normalize_value v = .nstr a → normalize_value w = .nnum b →
      compare_field v w = .typeMismatch) ∧
    compare_field (.pnum 5) (.pstr "5") = .equal ∧
    compare_field (.pstr "X") .pnone = .equal ∧
    compare_field (.pnum 5) (.pstr "5a") = .typeMismatch := by
  have hn5 : normalize_value (.pnum 5) = .nnum 5 := rfl
  have hs5 : normalize_value (.pstr "5") = .nnum 5 := by decide
  have hs5a : normalize_value (.pstr "5a") = .nstr "5a" := by decide
  have hsX : normalize_value (.pstr "X") = .nnone := by decide
  refine ⟨?_, ?_, ?_, ?_, ?_, ?_, ?_, ?_, ?_, ?_⟩
  · intro h1 h2; simp [compare_field, h1, h2]
  · intro h1 h2
    cases hw : normalize_value w with
    | nnone => exact absurd hw h2
    | nnum b => simp [compare_field, h1, hw]
    | nstr b => simp [compare_field, h1, hw]
  · intro h1 h2
    cases hv : normalize_value v with
    | nnone => exact absurd hv h1
    | nnum a => simp [compare_field, h2, hv]
    | nstr a => simp [compare_field, h2, hv]
  · intro a b h1 h2
    simp only [compare_field, h1, h2]
    by_cases hq : |a - b| > cmpTol
    · rw [if_pos hq]
      exact ⟨fun he => CmpOutcome.noConfusion he,
             fun hle => absurd hq (not_lt.mpr hle)⟩
    · rw [if_neg hq]
      exact ⟨fun _ => not_lt.mp hq, fun _ => rfl⟩
  · intro a b h1 h2
    simp only [compare_field, h1, h2]
    by_cases hs : a = b
    · subst hs
      rw [if_neg (not_not_intro rfl)]
      exact ⟨fun _ => rfl, fun _ => rfl⟩
    · rw [if_pos hs]
      exact ⟨fun he => CmpOutcome.noConfusion he, fun he => absurd he hs⟩
  · intro a b h1 h2; simp [compare_field, h1, h2]
  · intro a b h1 h2; simp [compare_field, h1, h2]
  · simp only [compare_field, hn5, hs5]
    rw [if_neg]
    simp [cmpTol]
  · have hnone : normalize_value .pnone = .nnone := rfl
    simp [compare_field, hsX, hnone]
  · simp [compare_field, hn5, hs5a]

/-- C4 witness: both sides none — equality — through the theorem. -/
theorem c4_witness : compare_field .pnone .pnone = .equal :=
  (c4_compare_field .pnone .pnone).1 rfl rfl

/-! ## C1 -/

theorem dispatchStep_of_match (acc : ModeResult) (t : Elem)
    (h : isTemplMatch t = true) : dispatchStep acc t = applyTemplateParser t := by
  unfold dispatchStep applyTemplateParser
  unfold isTemplMatch at h
  cases hf : TEMPLATE_PARSERS.find? (fun kp => strContains t.tag kp.1) with
  | none => rw [hf] at h; simp at h
  | some kp => rfl

theorem dispatchStep_of_nomatch (acc : ModeResult) (t : Elem)
    (h : isTemplMatch t = false) : dispatchStep acc t = acc := by
  unfold dispatchStep
  unfold isTemplMatch at h
  cases hf : TEMPLATE_PARSERS.find? (fun kp => strContains t.tag kp.1) with
  | none => rfl
  | some kp => rw [hf] at h; simp at h

theorem dispatch_foldl_nomatch (cs : List Elem) (acc : ModeResult)
    (h : cs.filter isTemplMatch = []) : cs.foldl dispatchStep acc = acc := by
  induction cs generalizing acc with
  | nil => rfl
  | cons c rest ih =>
    rw [List.filter_cons] at h
    by_cases hc : isTemplMatch c = true
    · rw [if_pos hc] at h; exact absurd h (by simp)
    · rw [if_neg hc] at h
      rw [List.foldl_cons,
        dispatchStep_of_nomatch acc c (Bool.not_eq_true _ ▸ hc)]
      exact ih acc h

theorem dispatch_foldl_last (cs : List Elem) (acc : ModeResult) (t : Elem)
    (h : (cs.filter isTemplMatch).getLast? = some t) :
    cs.foldl dispatchStep acc = applyTemplateParser t := by
  induction cs generalizing acc with
  | nil => simp at h
  | cons c rest ih =>
    rw [List.foldl_cons]
    by_cases hc : isTemplMatch c = true
    · rw [dispatchStep_of_match acc c hc]
      rw [List.filter_cons, if_pos hc] at h
      cases hfr : rest.filter isTemplMatch with
      | nil =>
        rw [hfr] at h
        simp only [List.getLast?_singleton, Option.some_inj] at h
        subst h
        exact dispatch_foldl_nomatch rest (applyTemplateParser c) hfr
      | cons b l =>
        rw [hfr, List.getLast?_cons_cons] at h
        exact ih (applyTemplateParser c) (by rw [hfr]; exact h)
    · rw [dispatchStep_of_nomatch acc c (Bool.not_eq_true _ ▸ hc)]
      rw [List.filter_cons, if_neg hc] at h
      exact ih acc h

/-- C1 (counterexample): a `Template` element with two children matching
template keys (`NirissSoss` then `MiriLRS`, in document order) yields the
extraction of the SECOND child — mode `"LRS"` — not the first child's
`"SOSS"` as the claim states: the dispatch loop has no `break`, so every
matching child's extraction overwrites the previous one. -/
theorem c1_counterexample :
    (template_dispatch [sossChild, lrsChild]).obs_mode = some "LRS" ∧
    (applyTemplateParser sossChild).obs_mode = some "SOSS" ∧
    template_dispatch [sossChild, lrsChild] ≠ applyTemplateParser sossChild := by
  refine ⟨rfl, rfl, ?_⟩
  intro h
  have h2 : (template_dispatch [sossChild, lrsChild]).obs_mode
      = (applyTemplateParser sossChild).obs_mode := by rw [h]
  revert h2
  decide

/-- C1 (amended): when the `Template` element has at least one child whose
tag contains a template key, the observing-mode descriptor equals the
extraction of the LAST such child in document order — each matching child's
extraction overwrites the previous one, so it is the final matching child,
not the first, whose result is honored. -/
theorem c1_template_dispatch (cs : List Elem) (t : Elem)
    (h : (cs.filter isTemplMatch).getLast? = some t) :
    template_dispatch cs = applyTemplateParser t :=
  dispatch_foldl_last cs initModeResult t h

/-- C1 witness: the two-template fixture, through the amended theorem. -/
theorem c1_witness :
    template_dispatch [sossChild, lrsChild] = applyTemplateParser lrsChild :=
  c1_template_dispatch [sossChild, lrsChild] lrsChild rfl

/-! ## C8 -/

theorem lastD_append (a b : List (Option String)) (d : Option String) :
    lastD (a ++ b) d = lastD b (lastD a d) := by
  induction a generalizing d with
  | nil => rfl
  | cons x xs ih =>
    show lastD (xs ++ b) x = lastD b (lastD xs x)
    exact ih x

theorem miriFC_foldl (cls : List Elem) (r : ModeResult) :
    (cls.foldl miriFCStep r).obs_mode
      = lastD ((cls.filter miriModeGuard).map Elem.text) r.obs_mode ∧
    (cls.foldl miriFCStep r).obs_rop
      = lastD ((cls.filter miriRopGuard).map Elem.text) r.obs_rop ∧
    (cls.foldl miriFCStep r).obs_groups
      = lastD ((cls.filter miriGroupsGuard).map Elem.text) r.obs_groups := by
  induction cls generalizing r with
  | nil => exact ⟨rfl, rfl, rfl⟩
  | cons c rest ih =>
    simp only [List.foldl_cons, List.filter_cons]
    by_cases h1 : strContains c.tag "ReadoutPattern" = true
    · have hstep : miriFCStep r c = { r with obs_rop := c.text } := by
        unfold miriFCStep; rw [if_pos h1]
      rw [hstep]
      have hm : miriModeGuard c = false := by simp [miriModeGuard, h1]
      have hr : miriRopGuard c = true := h1
      have hg : miriGroupsGuard c = false := by simp [miriGroupsGuard, h1]
      simp only [hm, hr, hg, Bool.false_eq_true, if_false, if_true, List.map_cons]
      exact ⟨(ih _).1, (ih _).2.1, (ih _).2.2⟩
    · by_cases h2 : strContains c.tag "Groups" = true
      · have hstep : miriFCStep r c = { r with obs_groups := c.text } := by
          unfold miriFCStep; rw [if_neg (by simp [h1]), if_pos h2]
        rw [hstep]
        have hm : miriModeGuard c = false := by simp [miriModeGuard, h1, h2]
        have hr : miriRopGuard c = false := by simp [miriRopGuard, h1]
        have hg : miriGroupsGuard c = true := by simp [miriGroupsGuard, h1, h2]
        simp only [hm, hr, hg, Bool.false_eq_true, if_false, if_true, List.map_cons]
        exact ⟨(ih _).1, (ih _).2.1, (ih _).2.2⟩
      · by_cases h3 : strContains c.tag "Filter" = true
        · have hstep : miriFCStep r c = { r with obs_mode := c.text } := by
            unfold miriFCStep
            rw [if_neg (by simp [h1]), if_neg (by simp [h2]), if_pos h3]
          rw [hstep]
          have hm : miriModeGuard c = true := by
            simp [miriModeGuard, h1, h2, h3]
          have hr : miriRopGuard c = false := by simp [miriRopGuard, h1]
          have hg : miriGroupsGuard c = false := by simp [miriGroupsGuard, h1, h2]
          simp only [hm, hr, hg, Bool.false_eq_true, if_false, if_true,
            List.map_cons]
          exact ⟨(ih _).1, (ih _).2.1, (ih _).2.2⟩
        · have hstep : miriFCStep r c = r := by
            unfold miriFCStep
            rw [if_neg (by simp [h1]), if_neg (by simp [h2]), if_neg (by simp [h3])]
          rw [hstep]
          have hm : miriModeGuard c = false := by simp [miriModeGuard, h1, h2, h3]
          have hr : miriRopGuard c = false := by simp [miriRopGuard, h1]
          have hg : miriGroupsGuard c = false := by simp [miriGroupsGuard, h1, h2]
          simp only [hm, hr, hg, Bool.false_eq_true, if_false]
          exact ⟨(ih _).1, (ih _).2.1, (ih _).2.2⟩

theorem miriCfg_foldl (fcs : List Elem) (r : ModeResult) :
    (fcs.foldl miriCfgStep r).obs_mode
      = lastD ((fcs.filter miriCfgGuard).flatMap
          (fun fc => (fc.children.filter miriModeGuard).map Elem.text)) r.obs_mode ∧
    (fcs.foldl miriCfgStep r).obs_rop
      = lastD ((fcs.filter miriCfgGuard).flatMap
          (fun fc => (fc.children.filter miriRopGuard).map Elem.text)) r.obs_rop ∧
    (fcs.foldl miriCfgStep r).obs_groups
      = lastD ((fcs.filter miriCfgGuard).flatMap
          (fun fc => (fc.children.filter miriGroupsGuard).map Elem.text)) r.obs_groups := by
  induction fcs generalizing r with
  | nil => exact ⟨rfl, rfl, rfl⟩
  | cons fc rest ih =>
    simp only [List.foldl_cons, List.filter_cons]
    by_cases hc : miriCfgGuard fc = true
    · have hstep : miriCfgStep r fc = fc.children.foldl miriFCStep r := by
        unfold miriCfgStep
        rw [if_pos (show strContains fc.tag "FilterConfig" = true from hc)]
      rw [hstep]
      simp only [hc, if_true, List.flatMap_cons, lastD_append]
      refine ⟨?_, ?_, ?_⟩
      · rw [(ih _).1, (miriFC_foldl fc.children r).1]
      · rw [(ih _).2.1, (miriFC_foldl fc.children r).2.1]
      · rw [(ih _).2.2, (miriFC_foldl fc.children r).2.2]
    · have hc' : strContains fc.tag "FilterConfig" = false :=
        Bool.not_eq_true _ ▸ hc
      have hstep : miriCfgStep r fc = r := by
        unfold miriCfgStep; rw [if_neg (by simp [hc'])]
      rw [hstep]
      simp only [hc, Bool.false_eq_true, if_false]
      exact ⟨(ih _).1, (ih _).2.1, (ih _).2.2⟩

theorem miri_foldl (tas : List Elem) (r : ModeResult) :
    (tas.foldl miriStep r).obs_mode
      = lastD ((tas.filter miriFiltersGuard).flatMap
          (fun ta => (ta.children.filter miriCfgGuard).flatMap
            (fun fc => (fc.children.filter miriModeGuard).map Elem.text))) r.obs_mode ∧
    (tas.foldl miriStep r).obs_rop
      = lastD ((tas.filter miriFiltersGuard).flatMap
          (fun ta => (ta.children.filter miriCfgGuard).flatMap
            (fun fc => (fc.children.filter miriRopGuard).map Elem.text))) r.obs_rop ∧
    (tas.foldl miriStep r).obs_groups
      = lastD ((tas.filter miriFiltersGuard).flatMap
          (fun ta => (ta.children.filter miriCfgGuard).flatMap
            (fun fc => (fc.children.filter miriGroupsGuard).map Elem.text))) r.obs_groups := by
  induction tas generalizing r with
  | nil => exact ⟨rfl, rfl, rfl⟩
  | cons ta rest ih =>
    simp only [List.foldl_cons, List.filter_cons]
    by_cases hs : strContains ta.tag "Subarray" = true
    · have hstep : miriStep r ta = { r with obs_subarray := ta.text } := by
        unfold miriStep; rw [if_pos hs]
      rw [hstep]
      have hfg : miriFiltersGuard ta = false := by simp [miriFiltersGuard, hs]
      simp only [hfg, Bool.false_eq_true, if_false]
      exact ⟨(ih _).1, (ih _).2.1, (ih _).2.2⟩
    · by_cases hf : strContains ta.tag "Filters" = true
      · have hstep : miriStep r ta = ta.children.foldl miriCfgStep r := by
          unfold miriStep; rw [if_neg (by simp [hs]), if_pos hf]
        rw [hstep]
        have hfg : miriFiltersGuard ta = true := by simp [miriFiltersGuard, hs, hf]
        simp only [hfg, if_true, List.flatMap_cons, lastD_append]
        refine ⟨?_, ?_, ?_⟩
        · rw [(ih _).1, (miriCfg_foldl ta.children r).1]
        · rw [(ih _).2.1, (miriCfg_foldl ta.children r).2.1]
        · rw [(ih _).2.2, (miriCfg_foldl ta.children r).2.2]
      · have hstep : miriStep r ta = r := by
          unfold miriStep; rw [if_neg (by simp [hs]), if_neg (by simp [hf])]
        rw [hstep]
        have hfg : miriFiltersGuard ta = false := by simp [miriFiltersGuard, hf]
        simp only [hfg, Bool.false_eq_true, if_false]
        exact ⟨(ih _).1, (ih _).2.1, (ih _).2.2⟩

/-- C8 (counterexample): a MIRI-Imaging template whose `Filters` child
holds two `FilterConfig`s yields the SECOND config's `Filter` value
(`"F1000W"`), not the first's (`"F770W"`) as the claim states: the nested
loops have no early exit, so later configs overwrite earlier ones. -/
theorem c8_counterexample :
    (parse_miri_imaging miriTwoConfigs).obs_mode = some "F1000W" ∧
    (parse_miri_imaging miriTwoConfigs).obs_mode ≠ some "F770W" := by
  constructor
  · rfl
  · intro h
    have := Option.some.inj (Eq.trans (Eq.symm rfl) h)
    exact absurd this (by decide)

/-- C8 (amended): for every MIRI-Imaging template subtree, the extracted
mode is the LAST `Filter` value written during the
`Filters` → `FilterConfig` traversal in document order (unset when there is
none) — later filter-configs overwrite earlier ones — and the
readout-pattern and groups are likewise the last corresponding values of
that nested subtree. -/
theorem c8_parse_miri_imaging (templ : Elem) :
    (parse_miri_imaging templ).obs_mode
      = lastD (miriUpdates miriModeGuard templ) none ∧
    (parse_miri_imaging templ).obs_rop
      = lastD (miriUpdates miriRopGuard templ) none ∧
    (parse_miri_imaging templ).obs_groups
      = lastD (miriUpdates miriGroupsGuard templ) none :=
  miri_foldl templ.children initModeResult

/-! ## C2 -/

/-- C2 (code-bug evidence): on a well-formed document whose observation
lacks a `TargetID` element, `parse_data_requests` with a target filter hits
`obs_target.strip()` with `obs_target = None` and raises `AttributeError`
instead of filtering the observation out. -/
theorem c2_missing_targetid_raises :
    parse_data_requests docNoTargetID (some "2734") (some "WASP-96")
      = Except.error "AttributeError" := rfl

/-! ## C3 -/

theorem parse_visits_core (tn : String) (l : List Elem) :
    l.filterMap
      (fun ve =>
        let vt := safe_find_text ve "target"
        match (some tn : Option String) with
        | some tn =>
          match vt with
          | none => none
          | some t =>
            if remove_all_whitespace t ≠ remove_all_whitespace tn then none
            else some (mkVisitRec ve vt)
        | none => some (mkVisitRec ve vt)) =
    (l.filter (fun ve =>
        match safe_find_text ve "target" with
        | some t => remove_all_whitespace t = remove_all_whitespace tn
        | none => false)).map
      (fun ve => mkVisitRec ve (safe_find_text ve "target")) := by
  induction l with
  | nil => rfl
  | cons ve rest ih =>
    rw [List.filterMap_cons, List.filter_cons]
    cases hvt : safe_find_text ve "target" with
    | none =>
      simp only [hvt]
      exact ih
    | some t =>
      by_cases heq : remove_all_whitespace t = remove_all_whitespace tn
      · simp only [hvt, heq, ne_eq, not_true_eq_false, if_false, decide_True,
          if_true, List.map_cons]
        rw [ih]
      · simp only [hvt, heq, ne_eq, not_false_eq_true, if_true, decide_False,
          Bool.false_eq_true, if_false]
        exact ih

/-- C3: with a non-empty target filter, `parseVisits` returns exactly the
visits whose target text, with all whitespace removed via the
`removeWhitespace` helper, equals the filter with all whitespace removed —
in document order — and a visit with no (usable) target element never
matches. -/
theorem c3_parse_visits (root : Elem) (tn : String) (hne : tn ≠ "") :
    parse_visits root (some tn) =
      ((root.findAllTag "visit").filter (fun ve =>
          match safe_find_text ve "target" with
          | some t => remove_all_whitespace t = remove_all_whitespace tn
          | none => false)).map
        (fun ve => mkVisitRec ve (safe_find_text ve "target")) := by
  unfold parse_visits
  exact parse_visits_core tn (root.findAllTag "visit")

/-- C3 witness: a visit whose target differs from the filter only in
whitespace is kept; a visit with no target child is dropped. -/
theorem c3_witness :
    parse_visits vsrTwoVisits (some "WASP-96") =
      [mkVisitRec
        (Elem.mk "visit" [("observation", "2"), ("visit", "1")] none
          [Elem.mk "target" [] (some " WASP - 96 ") [],
           Elem.mk "status" [] (some "Archived") []])
        (some "WASP - 96")] := by
  have h := c3_parse_visits vsrTwoVisits "WASP-96" (by decide)
  exact h.trans (by decide)

/-! ## C6 and C10: the matched-visit fields of `summary_info` -/

theorem summary_info_matched (pyFloat decYear : String → Option ℚ)
    (apt : AptDict) (tn pl : String) (vd : VsrDict)
    (obs : ObsRec) (rest : List ObsRec) (onum : String) (mv : VisitRec)
    (h1 : obs_matching apt.DataRequests tn = obs :: rest)
    (h2 : obs.Obs_Number = some onum) (h3 : onum ≠ "")
    (h4 : visit_matching vd.Visits onum = some mv) :
    (summary_info pyFloat decYear apt tn pl (some vd)).PlanWindow
      = (match mv.planWindow with
         | some pw => if pw = "" then some "X" else some pw
         | none => some "X") ∧
    (summary_info pyFloat decYear apt tn pl (some vd)).Hours
      = (match mv.hours with
         | some hs => if hs = "" then none else pyFloat hs
         | none => none) := by
  unfold summary_info
  rw [h1]
  simp only [h2, h3, if_false, h4]
  constructor <;> (repeat' split) <;> rfl

/-- C6: whenever `buildSummary` matches a visit, the summary's plan-window
field equals the visit's recorded plan window, and equals the sentinel
`"X"` when no plan window is recorded (absent or blank). -/
theorem c6_plan_window (pyFloat decYear : String → Option ℚ)
    (apt : AptDict) (tn pl : String) (vd : VsrDict)
    (obs : ObsRec) (rest : List ObsRec) (onum : String) (mv : VisitRec)
    (h1 : obs_matching apt.DataRequests tn = obs :: rest)
    (h2 : obs.Obs_Number = some onum) (h3 : onum ≠ "")
    (h4 : visit_matching vd.Visits onum = some mv) :
    (∀ pw, mv.planWindow = some pw → pw ≠ "" →
      (summary_info pyFloat decYear apt tn pl (some vd)).PlanWindow = some pw) ∧
    ((mv.planWindow = none ∨ mv.planWindow = some "") →
      (summary_info pyFloat decYear apt tn pl (some vd)).PlanWindow = some "X") := by
  have key := (summary_info_matched pyFloat decYear apt tn pl vd obs rest onum mv
    h1 h2 h3 h4).1
  constructor
  · intro pw hpw hne
    rw [key, hpw]
    simp [hne]
  · intro hcase
    rw [key]
    rcases hcase with hn | hb
    · rw [hn]
    · rw [hb]
      simp

/-- C6 witness: a matched visit without a recorded plan window yields the
sentinel `"X"`. -/
theorem c6_witness :
    (summary_info (fun _ => none) (fun _ => none) aptW "WASP-96" "b"
      (some vsrW)).PlanWindow = some "X" :=
  (c6_plan_window (fun _ => none) (fun _ => none) aptW "WASP-96" "b" vsrW
    obsW [] "2" visitW rfl rfl (by decide) rfl).2 (Or.inl rfl)

/-- C10: whenever `buildSummary` matches a visit with non-blank hours text,
the summary's Hours field equals the float conversion of that text when the
conversion succeeds, and is left unset — with no exception reaching the
caller — when the text does not parse as a number. -/
theorem c10_hours (pyFloat decYear : String → Option ℚ)
    (apt : AptDict) (tn pl : String) (vd : VsrDict)
    (obs : ObsRec) (rest : List ObsRec) (onum : String) (mv : VisitRec)
    (hs : String)
    (h1 : obs_matching apt.DataRequests tn = obs :: rest)
    (h2 : obs.Obs_Number = some onum) (h3 : onum ≠ "")
    (h4 : visit_matching vd.Visits onum = some mv)
    (h5 : mv.hours = some hs) (h6 : hs ≠ "") :
    (∀ q, pyFloat hs = some q →
      (summary_info pyFloat decYear apt tn pl (some vd)).Hours = some q) ∧
    (pyFloat hs = none →
      (summary_info pyFloat decYear apt tn pl (some vd)).Hours = none) := by
  have key := (summary_info_matched pyFloat decYear apt tn pl vd obs rest onum mv
    h1 h2 h3 h4).2
  rw [h5] at key
  simp only [h6, if_false] at key
  exact ⟨fun q hq => by rw [key, hq], fun hq => by rw [key, hq]⟩

/-- C10 witness: a successful conversion lands in the Hours field. -/
theorem c10_witness :
    (summary_info (fun _ => some (751 / 100)) (fun _ => none) aptW "WASP-96"
      "b" (some vsrW)).Hours = some (751 / 100) :=
  (c10_hours (fun _ => some (751 / 100)) (fun _ => none) aptW "WASP-96" "b"
    vsrW obsW [] "2" visitW "7.51" rfl rfl (by decide) rfl rfl (by decide)).1
    (751 / 100) rfl

end Trexolists
